import Mathlib

/-!
# Verification of the farcaster-box-backend job orchestrator

Shallow embedding of the two Express servers in this repository:

* `Main` embeds `src/index.js` (the final server, external collaborators are
  Neynar profile lookup, Replicate image generation, Pinata pinning, Thirdweb
  minting);
* `Mvp` embeds `src/unnamed/part_000` (the MVP server with a mock image source
  and a mock mint).

The shared in-memory job store `MINT_CACHE` is modelled as an association list
from the FID (a string key) to a `JobRecord`.  External collaborators are
modelled as oracle functions packaged in an `Env` structure; each collaborator
in the source catches its own network errors and returns `null` on failure, so
an oracle returns `Option String`.  JavaScript truthiness of nullable strings
(`if (!x)`) is modelled by `toVal`, which maps both `null` and `""` to `none`.

Each HTTP handler becomes a pure function from the cache (and its request
parameters and oracles) to the response, the updated cache, and a flag
recording whether the background pipeline was scheduled (for `start-generation`)
or the terminal mint action was performed (for `mint-nft`).  The fire-and-forget
background job of `start-generation` is split off as `runPipeline` /
`finishPipeline`: the handler's synchronous part returns immediately after
writing the Processing record, and the background task's single write-back is
`finishPipeline` applied to whatever cache state exists when it completes.
Responses are modelled as an HTTP status code plus a JSON object, a list of
string/boolean fields in insertion order (`JSON.stringify` omits `undefined`
fields, modelled by `optField`).
-/

/-- Job status stored in `MINT_CACHE`: the code writes exactly the strings
`"processing"`, `"ready"` and `"error"`. -/
inductive JStatus
  | processing
  | ready
  | error
deriving DecidableEq, Repr

/-- One `MINT_CACHE` entry: `{ status, ipfsUri?, metadataUri?, message? }`.
A field absent from the JS object literal is `none`. -/
structure JobRecord where
  status : JStatus
  ipfsUri : Option String := none
  metadataUri : Option String := none
  message : Option String := none
deriving DecidableEq, Repr

/-- The `MINT_CACHE` object: a finite map from FID to record, as an
association list (`get` reads the first binding, `put` overwrites in place,
`remove` models `delete MINT_CACHE[fid]`). -/
abbrev Store := List (String × JobRecord)

namespace Store

/-- `MINT_CACHE[fid]` read: `none` models `undefined`. -/
def get : Store → String → Option JobRecord
  | [], _ => none
  | (k₁, r) :: t, k => if k₁ = k then some r else get t k

/-- `MINT_CACHE[fid] = record`: overwrite the binding, or append it. -/
def put : Store → String → JobRecord → Store
  | [], k, r => [(k, r)]
  | (k₁, r₁) :: t, k, r => if k₁ = k then (k, r) :: t else (k₁, r₁) :: put t k r

/-- `delete MINT_CACHE[fid]`. -/
def remove : Store → String → Store
  | [], _ => []
  | (k₁, r₁) :: t, k => if k₁ = k then remove t k else (k₁, r₁) :: remove t k

end Store

/-- JS truthiness of a nullable string: `null`/`undefined` and `""` are falsy,
so `if (!x) throw ...` rejects exactly the values sent to `none` here. -/
def toVal : Option String → Option String
  | none => none
  | some s => if s = "" then none else some s

/-- The record written on admission: `{ status: "processing" }`. -/
def procRec : JobRecord := { status := .processing }

/-- The record written by the catch block: `{ status: "error", message }`. -/
def errRec (m : String) : JobRecord := { status := .error, message := some m }

/-- The record written on pipeline success:
`{ status: "ready", metadataUri, ipfsUri }`. -/
def readyRec (uri meta : String) : JobRecord :=
  { status := .ready, ipfsUri := some uri, metadataUri := some meta }

/-- A JSON field value appearing in a response body: string or boolean. -/
inductive Jv
  | s (v : String)
  | b (v : Bool)
deriving DecidableEq, Repr

/-- A JSON object, fields in insertion order. -/
abbrev JObj := List (String × Jv)

/-- An HTTP response: status code plus JSON body (`res.status(c).json(o)`;
plain `res.json(o)` is code 200). -/
structure HResp where
  code : Nat
  body : JObj
deriving DecidableEq, Repr

/-- One optional JSON field: `JSON.stringify` drops `undefined` values. -/
def optField (k : String) : Option String → JObj
  | some v => [(k, .s v)]
  | none => []

/-- The status strings as written into and read back from the cache. -/
def statusStr : JStatus → String
  | .processing => "processing"
  | .ready => "ready"
  | .error => "error"

/-- Serialization of a cache record by `res.json(MINT_CACHE[fid])`: the fields
that are present, in the record's field order. -/
def JobRecord.toJson (r : JobRecord) : JObj :=
  ("status", .s (statusStr r.status)) ::
    (optField "ipfsUri" r.ipfsUri ++ optField "metadataUri" r.metadataUri ++
      optField "message" r.message)

/-- The immediate acknowledgment of an accepted start call:
`{ status: "processing", message: "Generation started." }`. -/
def startedResp : HResp :=
  { code := 200,
    body := [("status", .s "processing"), ("message", .s "Generation started.")] }

/-- `GET /api/status` — identical in `src/index.js` and
`src/unnamed/part_000`: 404 `"No active job."` when the fid is falsy or has no
cache entry, otherwise the entry itself; the cache is never mutated. -/
def getStatus (cache : Store) (fid : String) : HResp × Store :=
  if fid = "" ∨ Store.get cache fid = none then
    ({ code := 404, body := [("error", .s "No active job.")] }, cache)
  else
    match Store.get cache fid with
    | none => ({ code := 404, body := [("error", .s "No active job.")] }, cache)
    | some r => ({ code := 200, body := r.toJson }, cache)

namespace Main

/-- External collaborators of `src/index.js`.  Each function already catches
its own errors and returns `null` (`none`) on failure:
`pfpUrl` is `getPfpUrl(fid)`, `aiImage` is `generateBoxCharacter(pfpUrl)`,
`pinImage` is `uploadImageToIpfs(aiImage, fid)` and `pinMeta` is
`uploadMetadataToIpfs(fid, ipfsUri)`. -/
structure Env where
  pfpUrl : String → Option String
  aiImage : String → Option String
  pinImage : String → String → Option String
  pinMeta : String → String → Option String

/-- The pipeline stages of `src/index.js`, in source order. -/
inductive Stage
  | resolvePfp
  | generate
  | pinImage
  | pinMetadata
deriving DecidableEq, Repr

/-- The `try` block of the background job in `POST /api/start-generation`:
each stage's falsy result throws the corresponding `Error`, aborting the
sequence.  Returns the outcome together with the list of stages that ran. -/
def pipelineSteps (env : Env) (fid : String) :
    Except String (String × String) × List Stage :=
  match toVal (env.pfpUrl fid) with
  | none => (.error "No PFP found.", [.resolvePfp])
  | some pfp =>
    match toVal (env.aiImage pfp) with
    | none => (.error "AI generation failed.", [.resolvePfp, .generate])
    | some ai =>
      match toVal (env.pinImage ai fid) with
      | none => (.error "IPFS failed.", [.resolvePfp, .generate, .pinImage])
      | some uri =>
        match toVal (env.pinMeta fid uri) with
        | none =>
          (.error "Metadata failed.",
            [.resolvePfp, .generate, .pinImage, .pinMetadata])
        | some meta =>
          (.ok (uri, meta), [.resolvePfp, .generate, .pinImage, .pinMetadata])

/-- The record the background job writes for `fid`: the Ready record on
success, or the catch block's `{ status: "error", message: err.message }`. -/
def runPipeline (env : Env) (fid : String) : JobRecord × List Stage :=
  match pipelineSteps env fid with
  | (.error m, ran) => (errRec m, ran)
  | (.ok (uri, meta), ran) => (readyRec uri meta, ran)

/-- The background job's single write-back into `MINT_CACHE`. -/
def finishPipeline (env : Env) (fid : String) (cache : Store) : Store :=
  Store.put cache fid (runPipeline env fid).1

/-- Synchronous part of `POST /api/start-generation` in `src/index.js`:
reject a falsy fid with 400; short-circuit on any cached record whose status
is not `"error"`, answering `{ status }` only; otherwise overwrite with the
Processing record, acknowledge, and schedule the pipeline (the `Bool`). -/
def startGeneration (cache : Store) (fid : String) : HResp × Store × Bool :=
  if fid = "" then
    ({ code := 400, body := [("error", .s "Missing FID")] }, cache, false)
  else
    match Store.get cache fid with
    | some r =>
      if r.status ≠ .error then
        ({ code := 200, body := [("status", .s (statusStr r.status))] },
          cache, false)
      else (startedResp, Store.put cache fid procRec, true)
    | none => (startedResp, Store.put cache fid procRec, true)

/-- `POST /api/mint-nft` in `src/index.js`.  `sdkOk` is whether `getSDK()`
succeeded; `mint` is the Thirdweb `contract.erc721.mint` call, taking the fid
(used in the token name), the recipient and the stored `metadataUri`, and
returning the transaction hash or throwing with a diagnostic message.  The
returned `Bool` records whether the Minting Service was invoked. -/
def mintNft (sdkOk : Bool) (mint : String → String → Option String → Except String String)
    (cache : Store) (fid recipient : String) : HResp × Store × Bool :=
  if fid = "" ∨ recipient = "" then
    ({ code := 400, body := [("error", .s "Missing parameters.")] }, cache, false)
  else
    match Store.get cache fid with
    | none =>
      ({ code := 409, body := [("error", .s "Not ready to mint.")] }, cache, false)
    | some entry =>
      if entry.status = .ready then
        if sdkOk then
          match mint fid recipient entry.metadataUri with
          | .ok tx =>
            ({ code := 200, body := [("success", .b true), ("txHash", .s tx)] },
              Store.remove cache fid, true)
          | .error d =>
            ({ code := 500,
               body := [("error", .s "Mint failed."), ("details", .s d)] },
              cache, true)
        else
          ({ code := 500, body := [("error", .s "Blockchain connection failed.")] },
            cache, false)
      else
        ({ code := 409, body := [("error", .s "Not ready to mint.")] }, cache, false)

end Main

namespace Mvp

/-- External collaborators of `src/unnamed/part_000`: the builtin
`encodeURIComponent` used by the mock image source, and the two Pinata
uploads. -/
structure Env where
  encode : String → String
  pinImage : String → String → Option String
  pinMeta : String → String → Option String

/-- The pipeline stages of `src/unnamed/part_000`, in source order. -/
inductive Stage
  | generate
  | pinImage
  | pinMetadata
deriving DecidableEq, Repr

/-- `generateBoxCharacter(fid)` of the MVP server: a deterministic placeholder
URL seeded by `String(fid || "default")`; it never fails. -/
def generateBoxCharacter (env : Env) (fid : String) : String :=
  "https://picsum.photos/seed/" ++
    env.encode (if fid = "" then "default" else fid) ++ "/1024/1024"

/-- `err.message || "Unknown error"`. -/
def jsOr (a b : String) : String := if a = "" then b else a

/-- The `try` block of the MVP background job: placeholder image, then the two
IPFS uploads, each falsy result throwing the corresponding `Error`. -/
def pipelineSteps (env : Env) (fid : String) :
    Except String (String × String) × List Stage :=
  match toVal (env.pinImage (generateBoxCharacter env fid) fid) with
  | none => (.error "IPFS image upload failed.", [.generate, .pinImage])
  | some uri =>
    match toVal (env.pinMeta fid uri) with
    | none =>
      (.error "IPFS metadata upload failed.", [.generate, .pinImage, .pinMetadata])
    | some meta => (.ok (uri, meta), [.generate, .pinImage, .pinMetadata])

/-- The record the MVP background job writes: the Ready record, or the catch
block's `{ status: "error", message: err.message || "Unknown error" }`. -/
def runPipeline (env : Env) (fid : String) : JobRecord × List Stage :=
  match pipelineSteps env fid with
  | (.error m, ran) => ({ status := .error, message := some (jsOr m "Unknown error") }, ran)
  | (.ok (uri, meta), ran) => (readyRec uri meta, ran)

/-- The MVP background job's single write-back into `MINT_CACHE`. -/
def finishPipeline (env : Env) (fid : String) (cache : Store) : Store :=
  Store.put cache fid (runPipeline env fid).1

/-- Synchronous part of `POST /api/start-generation` in
`src/unnamed/part_000`: reject a falsy fid with 400; short-circuit only on a
cached record with status `"ready"`, answering the cached URIs; any other
record (Processing included) is overwritten with a fresh Processing record and
the pipeline is scheduled again. -/
def startGeneration (cache : Store) (fid : String) : HResp × Store × Bool :=
  if fid = "" then
    ({ code := 400, body := [("error", .s "Missing FID")] }, cache, false)
  else
    match Store.get cache fid with
    | some r =>
      if r.status = .ready then
        ({ code := 200,
           body := ("status", .s "ready") ::
             (optField "ipfsUri" r.ipfsUri ++ optField "metadataUri" r.metadataUri) },
          cache, false)
      else (startedResp, Store.put cache fid procRec, true)
    | none => (startedResp, Store.put cache fid procRec, true)

/-- The 409 body of the MVP mint endpoint. -/
def notReadyBody : JObj :=
  [("success", .b false),
   ("error", .s "Not ready to mint – kein \x27ready\x27-Status im Cache.")]

/-- `POST /api/mint-nft` of the MVP server (mock mint): validation and the
Ready precondition as in the final server, but the terminal action always
succeeds with `"0x" + crypto.randomBytes(32).toString("hex")`, whose hex part
is the oracle `randomHex`.  The `Bool` records that the mock mint ran. -/
def mintNft (randomHex : String) (cache : Store) (fid recipient : String) :
    HResp × Store × Bool :=
  if fid = "" ∨ recipient = "" then
    ({ code := 400,
       body := [("success", .b false),
                ("error", .s "Missing parameters (fid oder recipientAddress).")] },
      cache, false)
  else
    match Store.get cache fid with
    | none => ({ code := 409, body := notReadyBody }, cache, false)
    | some entry =>
      if entry.status = .ready then
        ({ code := 200,
           body := [("success", .b true), ("txHash", .s ("0x" ++ randomHex))] },
          Store.remove cache fid, true)
      else ({ code := 409, body := notReadyBody }, cache, false)

end Mvp

/-! ## Store lemmas -/

theorem Store.get_put_self (cache : Store) (k : String) (r : JobRecord) :
    Store.get (Store.put cache k r) k = some r := by
  induction cache with
  | nil => simp [Store.put, Store.get]
  | cons p t ih =>
    rcases p with ⟨k₁, r₁⟩
    by_cases h : k₁ = k
    · simp [Store.put, Store.get, h]
    · simp [Store.put, Store.get, h, ih]

theorem Store.get_put_other (cache : Store) {k k₂ : String} (r : JobRecord)
    (h : k₂ ≠ k) : Store.get (Store.put cache k r) k₂ = Store.get cache k₂ := by
  induction cache with
  | nil => simp [Store.put, Store.get, Ne.symm h]
  | cons p t ih =>
    rcases p with ⟨k₁, r₁⟩
    by_cases h₁ : k₁ = k
    · subst h₁
      simp [Store.put, Store.get, Ne.symm h]
    · simp [Store.put, Store.get, h₁, ih]

theorem Store.get_remove_self (cache : Store) (k : String) :
    Store.get (Store.remove cache k) k = none := by
  induction cache with
  | nil => simp [Store.remove, Store.get]
  | cons p t ih =>
    rcases p with ⟨k₁, r₁⟩
    by_cases h : k₁ = k
    · simp [Store.remove, Store.get, h, ih]
    · simp [Store.remove, Store.get, h, ih]

theorem Store.get_remove_other (cache : Store) {k k₂ : String}
    (h : k₂ ≠ k) : Store.get (Store.remove cache k) k₂ = Store.get cache k₂ := by
  induction cache with
  | nil => simp [Store.remove, Store.get]
  | cons p t ih =>
    rcases p with ⟨k₁, r₁⟩
    by_cases h₁ : k₁ = k
    · subst h₁
      simp [Store.remove, Store.get, Ne.symm h, ih]
    · simp [Store.remove, Store.get, h₁, ih]

/-- A value that survived a JS truthiness check is a non-empty string. -/
theorem toVal_ne_empty {x : Option String} {u : String} (h : toVal x = some u) :
    u ≠ "" := by
  cases x with
  | none => exact absurd h (by simp [toVal])
  | some s =>
    by_cases hs : s = ""
    · simp [toVal, hs] at h
    · simp [toVal, hs] at h
      exact h ▸ hs

/-! ## The record invariant -/

/-- The spec's record invariant: URIs are present iff the record is Ready,
the error message is present iff the record is Error. -/
def recordInv (r : JobRecord) : Prop :=
  (r.ipfsUri.isSome ↔ r.status = .ready) ∧
  (r.metadataUri.isSome ↔ r.status = .ready) ∧
  (r.message.isSome ↔ r.status = .error)

/-- Store-wide form of the record invariant. -/
def storeInv (cache : Store) : Prop :=
  ∀ k r, Store.get cache k = some r → recordInv r

theorem recordInv_procRec : recordInv procRec := by
  simp [recordInv, procRec]

theorem recordInv_errRec (m : String) : recordInv (errRec m) := by
  simp [recordInv, errRec]

theorem recordInv_readyRec (uri meta : String) : recordInv (readyRec uri meta) := by
  simp [recordInv, readyRec]

theorem storeInv_put {cache : Store} (h : storeInv cache) {k : String}
    {r : JobRecord} (hr : recordInv r) : storeInv (Store.put cache k r) := by
  intro k₂ r₂ hg
  by_cases hk : k₂ = k
  · subst hk
    rw [Store.get_put_self] at hg
    cases hg
    exact hr
  · rw [Store.get_put_other cache r hk] at hg
    exact h k₂ r₂ hg

theorem storeInv_remove {cache : Store} (h : storeInv cache) (k : String) :
    storeInv (Store.remove cache k) := by
  intro k₂ r₂ hg
  by_cases hk : k₂ = k
  · subst hk
    rw [Store.get_remove_self] at hg
    cases hg
  · rw [Store.get_remove_other cache hk] at hg
    exact h k₂ r₂ hg

/-- The final server's pipeline only ever writes invariant-respecting
records. -/
theorem recordInv_runPipelineMain (env : Main.Env) (fid : String) :
    recordInv (Main.runPipeline env fid).1 := by
  rcases hp : Main.pipelineSteps env fid with ⟨res, ran⟩
  cases res with
  | error m => simpa [Main.runPipeline, hp] using recordInv_errRec m
  | ok p =>
    rcases p with ⟨u, m⟩
    simpa [Main.runPipeline, hp] using recordInv_readyRec u m

/-- The MVP server's pipeline only ever writes invariant-respecting
records. -/
theorem recordInv_runPipelineMvp (env : Mvp.Env) (fid : String) :
    recordInv (Mvp.runPipeline env fid).1 := by
  rcases hp : Mvp.pipelineSteps env fid with ⟨res, ran⟩
  cases res with
  | error m =>
    simpa [Mvp.runPipeline, hp] using recordInv_errRec (Mvp.jsOr m "Unknown error")
  | ok p =>
    rcases p with ⟨u, m⟩
    simpa [Mvp.runPipeline, hp] using recordInv_readyRec u m

/-! ## Concrete environments used to exercise the theorems -/

/-- An environment in which all four collaborators of the final server
answer. -/
def envAllOk : Main.Env :=
  { pfpUrl := fun _ => some "https://pfp.example/42.png",
    aiImage := fun _ => some "https://replicate.example/out.png",
    pinImage := fun _ _ => some "ipfs://Qa",
    pinMeta := fun _ _ => some "ipfs://Qb" }

/-- An environment in which the profile lookup finds no picture. -/
def envNoPfp : Main.Env := { envAllOk with pfpUrl := fun _ => none }

/-- An MVP environment in which both uploads answer. -/
def mvpEnvAllOk : Mvp.Env :=
  { encode := fun s => s,
    pinImage := fun _ _ => some "ipfs://Qa",
    pinMeta := fun _ _ => some "ipfs://Qb" }

/-- An MVP environment in which the image upload fails. -/
def mvpEnvNoPin : Mvp.Env := { mvpEnvAllOk with pinImage := fun _ _ => none }

/-! ## Claims -/

/-- C9: a start-generation request with a missing/empty key is rejected
synchronously with 400 `"Missing FID"` and the job store is left completely
unchanged, in both servers; no pipeline is scheduled. -/
theorem C9_invalid_key_rejected_store_untouched (cache : Store) :
    Main.startGeneration cache "" =
      ({ code := 400, body := [("error", Jv.s "Missing FID")] }, cache, false) ∧
    Mvp.startGeneration cache "" =
      ({ code := 400, body := [("error", Jv.s "Missing FID")] }, cache, false) := by
  exact ⟨rfl, rfl⟩

/-- C10: the status endpoint answers 404 `"No active job."` both for an empty
fid and for a fid with no cache entry (`InvalidInput` is never raised), and it
never mutates the store. -/
theorem C10_status_empty_fid_is_not_found (cache : Store) (fid : String) :
    ((fid = "" ∨ Store.get cache fid = none) →
      getStatus cache fid =
        ({ code := 404, body := [("error", Jv.s "No active job.")] }, cache)) ∧
    (getStatus cache fid).2 = cache := by
  refine ⟨fun h => by simp only [getStatus, if_pos h], ?_⟩
  by_cases h : fid = "" ∨ Store.get cache fid = none
  · simp only [getStatus, if_pos h]
  · simp only [getStatus, if_neg h]
    cases hg : Store.get cache fid <;> simp

/-- C10 witness: a concrete query for an unknown fid on the empty store. -/
theorem C10_witness :
    getStatus [] "7" =
      ({ code := 404, body := [("error", Jv.s "No active job.")] }, []) :=
  (C10_status_empty_fid_is_not_found [] "7").1 (Or.inr rfl)

/-- C1 counterexample: in the MVP server (`src/unnamed/part_000`), a
start-generation request arriving while the cache already holds a Processing
record for `"1"` schedules the pipeline again (the scheduling flag is `true`),
contrary to the claim that no work is re-scheduled. -/
theorem C1_counterexample :
    (Mvp.startGeneration [("1", procRec)] "1").2.2 = true := by decide

/-- C1 (amended): in the final server (`src/index.js`) a start call on a
Processing record returns the current status without re-scheduling any work and
leaves the store unchanged; the MVP server (`src/unnamed/part_000`) instead
overwrites the record with a fresh Processing record and schedules the pipeline
again, because it short-circuits only on Ready. -/
theorem C1_processing_admission (cache : Store) (fid : String) (r : JobRecord)
    (hf : fid ≠ "") (hget : Store.get cache fid = some r)
    (hst : r.status = .processing) :
    Main.startGeneration cache fid =
      ({ code := 200, body := [("status", Jv.s "processing")] }, cache, false) ∧
    Mvp.startGeneration cache fid =
      (startedResp, Store.put cache fid procRec, true) := by
  constructor
  · simp [Main.startGeneration, hf, hget, hst, statusStr]
  · simp [Mvp.startGeneration, hf, hget, hst]

/-- C1 witness: the final server's admission on a concrete Processing
record. -/
theorem C1_witness :
    Main.startGeneration [("1", procRec)] "1" =
      ({ code := 200, body := [("status", Jv.s "processing")] },
        [("1", procRec)], false) ∧
    Mvp.startGeneration [("1", procRec)] "1" =
      (startedResp, Store.put [("1", procRec)] "1" procRec, true) :=
  C1_processing_admission [("1", procRec)] "1" procRec (by decide) rfl rfl

/-- C2 counterexample: in the final server (`src/index.js`), the
start-generation short-circuit on a Ready record answers `{ status: "ready" }`
only — the response carries no `metadataUri` field (and no `ipfsUri` field),
contrary to the claim that the stored URIs are returned. -/
theorem C2_counterexample :
    ((Main.startGeneration [("1", readyRec "ipfs://Qa" "ipfs://Qb")] "1").1.body.lookup
      "metadataUri") = none := by decide

/-- C2 (amended): a start call on a Ready record short-circuits, spawns no
pipeline and leaves the record unchanged in both servers; the MVP server's
response carries the stored `ipfsUri` and `metadataUri`, while the final
server's response carries only the status. -/
theorem C2_ready_short_circuit (cache : Store) (fid : String) (r : JobRecord)
    (hf : fid ≠ "") (hget : Store.get cache fid = some r)
    (hst : r.status = .ready) :
    Main.startGeneration cache fid =
      ({ code := 200, body := [("status", Jv.s "ready")] }, cache, false) ∧
    Mvp.startGeneration cache fid =
      ({ code := 200,
         body := ("status", Jv.s "ready") ::
           (optField "ipfsUri" r.ipfsUri ++ optField "metadataUri" r.metadataUri) },
        cache, false) := by
  constructor
  · simp [Main.startGeneration, hf, hget, hst, statusStr]
  · simp [Mvp.startGeneration, hf, hget, hst]

/-- C2 witness: the short-circuit on a concrete Ready record. -/
theorem C2_witness :
    Main.startGeneration [("1", readyRec "ipfs://Qa" "ipfs://Qb")] "1" =
      ({ code := 200, body := [("status", Jv.s "ready")] },
        [("1", readyRec "ipfs://Qa" "ipfs://Qb")], false) ∧
    Mvp.startGeneration [("1", readyRec "ipfs://Qa" "ipfs://Qb")] "1" =
      ({ code := 200,
         body := ("status", Jv.s "ready") ::
           (optField "ipfsUri" (readyRec "ipfs://Qa" "ipfs://Qb").ipfsUri ++
             optField "metadataUri" (readyRec "ipfs://Qa" "ipfs://Qb").metadataUri) },
        [("1", readyRec "ipfs://Qa" "ipfs://Qb")], false) :=
  C2_ready_short_circuit [("1", readyRec "ipfs://Qa" "ipfs://Qb")] "1"
    (readyRec "ipfs://Qa" "ipfs://Qb") (by decide) rfl rfl

/-- C3: with non-empty parameters, a mint request for a key whose record is
absent or not Ready (Processing or Error) fails with 409 Not-ready in both
servers, leaves the store unchanged, and never invokes the minting action
(the invocation flag is `false`), for every SDK state and minting oracle. -/
theorem C3_mint_rejects_non_ready (cache : Store) (fid recipient : String)
    (hf : fid ≠ "") (hr : recipient ≠ "")
    (hnr : ∀ e, Store.get cache fid = some e → e.status ≠ .ready)
    (sdkOk : Bool) (mint : String → String → Option String → Except String String)
    (randomHex : String) :
    Main.mintNft sdkOk mint cache fid recipient =
      ({ code := 409, body := [("error", Jv.s "Not ready to mint.")] },
        cache, false) ∧
    Mvp.mintNft randomHex cache fid recipient =
      ({ code := 409, body := Mvp.notReadyBody }, cache, false) := by
  have hor : ¬(fid = "" ∨ recipient = "") := by simp [hf, hr]
  constructor
  · simp only [Main.mintNft, if_neg hor]
    cases hg : Store.get cache fid with
    | none => rfl
    | some e => simp [hnr e hg]
  · simp only [Mvp.mintNft, if_neg hor]
    cases hg : Store.get cache fid with
    | none => rfl
    | some e => simp [hnr e hg]

/-- C3 witness: a concrete mint attempt on a Processing record, with an SDK
that would be available and a minting oracle that would succeed. -/
theorem C3_witness :
    Main.mintNft true (fun _ _ _ => Except.ok "0xDEAD") [("1", procRec)] "1" "0xABC" =
      ({ code := 409, body := [("error", Jv.s "Not ready to mint.")] },
        [("1", procRec)], false) ∧
    Mvp.mintNft "ab" [("1", procRec)] "1" "0xABC" =
      ({ code := 409, body := Mvp.notReadyBody }, [("1", procRec)], false) :=
  C3_mint_rejects_non_ready [("1", procRec)] "1" "0xABC" (by decide) (by decide)
    (fun e he => by
      simp only [Store.get, if_pos rfl] at he
      cases he
      decide)
    true (fun _ _ _ => Except.ok "0xDEAD") "ab"

/-- C4: a mint request on a Ready record whose minting action succeeds returns
the transaction reference and removes the record, in both servers; afterwards a
status query for the key answers 404 and any repeated mint request answers 409
Not-ready without touching the store again. -/
theorem C4_mint_success_consumes_record (cache : Store)
    (fid recipient tx randomHex : String) (r : JobRecord)
    (mint : String → String → Option String → Except String String)
    (hf : fid ≠ "") (hr : recipient ≠ "")
    (hget : Store.get cache fid = some r) (hst : r.status = .ready)
    (hmint : mint fid recipient r.metadataUri = .ok tx) :
    Main.mintNft true mint cache fid recipient =
      ({ code := 200, body := [("success", Jv.b true), ("txHash", Jv.s tx)] },
        Store.remove cache fid, true) ∧
    Mvp.mintNft randomHex cache fid recipient =
      ({ code := 200,
         body := [("success", Jv.b true), ("txHash", Jv.s ("0x" ++ randomHex))] },
        Store.remove cache fid, true) ∧
    (getStatus (Store.remove cache fid) fid).1.code = 404 ∧
    (∀ (sdkOk₂ : Bool) (mint₂ : String → String → Option String → Except String String),
      Main.mintNft sdkOk₂ mint₂ (Store.remove cache fid) fid recipient =
        ({ code := 409, body := [("error", Jv.s "Not ready to mint.")] },
          Store.remove cache fid, false)) ∧
    (∀ hex₂ : String,
      Mvp.mintNft hex₂ (Store.remove cache fid) fid recipient =
        ({ code := 409, body := Mvp.notReadyBody }, Store.remove cache fid, false)) := by
  have hor : ¬(fid = "" ∨ recipient = "") := by simp [hf, hr]
  have hre : Store.get (Store.remove cache fid) fid = none :=
    Store.get_remove_self cache fid
  refine ⟨?_, ?_, ?_, ?_, ?_⟩
  · simp [Main.mintNft, hor, hget, hst, hmint]
  · simp [Mvp.mintNft, hor, hget, hst]
  · simp [getStatus, hre]
  · intro sdkOk₂ mint₂
    simp only [Main.mintNft, if_neg hor, hre]
  · intro hex₂
    simp only [Mvp.mintNft, if_neg hor, hre]

/-- C4 witness: a concrete successful mint on a Ready record. -/
theorem C4_witness :
    Main.mintNft true (fun _ _ _ => Except.ok "0xDEAD")
        [("42", readyRec "ipfs://Qa" "ipfs://Qb")] "42" "0xABC" =
      ({ code := 200, body := [("success", Jv.b true), ("txHash", Jv.s "0xDEAD")] },
        Store.remove [("42", readyRec "ipfs://Qa" "ipfs://Qb")] "42", true) ∧
    Mvp.mintNft "ab" [("42", readyRec "ipfs://Qa" "ipfs://Qb")] "42" "0xABC" =
      ({ code := 200,
         body := [("success", Jv.b true), ("txHash", Jv.s ("0x" ++ "ab"))] },
        Store.remove [("42", readyRec "ipfs://Qa" "ipfs://Qb")] "42", true) ∧
    (getStatus (Store.remove [("42", readyRec "ipfs://Qa" "ipfs://Qb")] "42") "42").1.code = 404 ∧
    (∀ (sdkOk₂ : Bool) (mint₂ : String → String → Option String → Except String String),
      Main.mintNft sdkOk₂ mint₂
          (Store.remove [("42", readyRec "ipfs://Qa" "ipfs://Qb")] "42") "42" "0xABC" =
        ({ code := 409, body := [("error", Jv.s "Not ready to mint.")] },
          Store.remove [("42", readyRec "ipfs://Qa" "ipfs://Qb")] "42", false)) ∧
    (∀ hex₂ : String,
      Mvp.mintNft hex₂
          (Store.remove [("42", readyRec "ipfs://Qa" "ipfs://Qb")] "42") "42" "0xABC" =
        ({ code := 409, body := Mvp.notReadyBody },
          Store.remove [("42", readyRec "ipfs://Qa" "ipfs://Qb")] "42", false)) :=
  C4_mint_success_consumes_record [("42", readyRec "ipfs://Qa" "ipfs://Qb")]
    "42" "0xABC" "0xDEAD" "ab" (readyRec "ipfs://Qa" "ipfs://Qb")
    (fun _ _ _ => Except.ok "0xDEAD") (by decide) (by decide) rfl rfl rfl

/-- C5: a mint request on a Ready record whose Thirdweb mint call throws
returns 500 `"Mint failed."` with the thrown diagnostic as `details`, leaves
the store — hence the Ready record and its URIs — unchanged, and a retry with a
succeeding minting oracle then completes with 200 and the transaction hash. -/
theorem C5_mint_failure_keeps_record (cache : Store)
    (fid recipient d : String) (r : JobRecord)
    (mint : String → String → Option String → Except String String)
    (hf : fid ≠ "") (hr : recipient ≠ "")
    (hget : Store.get cache fid = some r) (hst : r.status = .ready)
    (hmint : mint fid recipient r.metadataUri = .error d) :
    Main.mintNft true mint cache fid recipient =
      ({ code := 500, body := [("error", Jv.s "Mint failed."), ("details", Jv.s d)] },
        cache, true) ∧
    (∀ (tx : String) (mint₂ : String → String → Option String → Except String String),
      mint₂ fid recipient r.metadataUri = .ok tx →
      Main.mintNft true mint₂ cache fid recipient =
        ({ code := 200, body := [("success", Jv.b true), ("txHash", Jv.s tx)] },
          Store.remove cache fid, true)) := by
  have hor : ¬(fid = "" ∨ recipient = "") := by simp [hf, hr]
  constructor
  · simp [Main.mintNft, hor, hget, hst, hmint]
  · intro tx mint₂ hmint₂
    simp [Main.mintNft, hor, hget, hst, hmint₂]

/-- C5 witness: a concrete failed mint on a Ready record, then a successful
retry. -/
theorem C5_witness :
    Main.mintNft true (fun _ _ _ => Except.error "insufficient funds")
        [("42", readyRec "ipfs://Qa" "ipfs://Qb")] "42" "0xABC" =
      ({ code := 500,
         body := [("error", Jv.s "Mint failed."),
                  ("details", Jv.s "insufficient funds")] },
        [("42", readyRec "ipfs://Qa" "ipfs://Qb")], true) ∧
    Main.mintNft true (fun _ _ _ => Except.ok "0xDEAD")
        [("42", readyRec "ipfs://Qa" "ipfs://Qb")] "42" "0xABC" =
      ({ code := 200, body := [("success", Jv.b true), ("txHash", Jv.s "0xDEAD")] },
        Store.remove [("42", readyRec "ipfs://Qa" "ipfs://Qb")] "42", true) :=
  have h := C5_mint_failure_keeps_record [("42", readyRec "ipfs://Qa" "ipfs://Qb")]
    "42" "0xABC" "insufficient funds" (readyRec "ipfs://Qa" "ipfs://Qb")
    (fun _ _ _ => Except.error "insufficient funds")
    (by decide) (by decide) rfl rfl rfl
  ⟨h.1, h.2 "0xDEAD" (fun _ _ _ => Except.ok "0xDEAD") rfl⟩

/-- C6: whenever a pipeline stage fails (its collaborator answers `null` or
`""`), no later stage runs and the background job overwrites the key's record
with exactly `{ status: "error", message }`, where `message` is the failing
stage's fixed non-empty diagnostic text and no `ipfsUri`/`metadataUri` field is
present — shown case by case for the four stages of the final server and the
two fallible stages of the MVP server. -/
theorem C6_stage_failure_writes_error_only (env : Main.Env) (menv : Mvp.Env)
    (fid : String) (cache : Store) :
    (toVal (env.pfpUrl fid) = none →
      Main.runPipeline env fid =
        ({ status := .error, ipfsUri := none, metadataUri := none,
           message := some "No PFP found." }, [.resolvePfp]) ∧
      Store.get (Main.finishPipeline env fid cache) fid =
        some (errRec "No PFP found.")) ∧
    (∀ pfp, toVal (env.pfpUrl fid) = some pfp →
      toVal (env.aiImage pfp) = none →
      Main.runPipeline env fid =
        ({ status := .error, ipfsUri := none, metadataUri := none,
           message := some "AI generation failed." }, [.resolvePfp, .generate]) ∧
      Store.get (Main.finishPipeline env fid cache) fid =
        some (errRec "AI generation failed.")) ∧
    (∀ pfp ai, toVal (env.pfpUrl fid) = some pfp →
      toVal (env.aiImage pfp) = some ai →
      toVal (env.pinImage ai fid) = none →
      Main.runPipeline env fid =
        ({ status := .error, ipfsUri := none, metadataUri := none,
           message := some "IPFS failed." }, [.resolvePfp, .generate, .pinImage]) ∧
      Store.get (Main.finishPipeline env fid cache) fid =
        some (errRec "IPFS failed.")) ∧
    (∀ pfp ai uri, toVal (env.pfpUrl fid) = some pfp →
      toVal (env.aiImage pfp) = some ai →
      toVal (env.pinImage ai fid) = some uri →
      toVal (env.pinMeta fid uri) = none →
      Main.runPipeline env fid =
        ({ status := .error, ipfsUri := none, metadataUri := none,
           message := some "Metadata failed." },
          [.resolvePfp, .generate, .pinImage, .pinMetadata]) ∧
      Store.get (Main.finishPipeline env fid cache) fid =
        some (errRec "Metadata failed.")) ∧
    (toVal (menv.pinImage (Mvp.generateBoxCharacter menv fid) fid) = none →
      Mvp.runPipeline menv fid =
        ({ status := .error, ipfsUri := none, metadataUri := none,
           message := some "IPFS image upload failed." },
          [.generate, .pinImage]) ∧
      Store.get (Mvp.finishPipeline menv fid cache) fid =
        some (errRec "IPFS image upload failed.")) ∧
    (∀ uri, toVal (menv.pinImage (Mvp.generateBoxCharacter menv fid) fid) = some uri →
      toVal (menv.pinMeta fid uri) = none →
      Mvp.runPipeline menv fid =
        ({ status := .error, ipfsUri := none, metadataUri := none,
           message := some "IPFS metadata upload failed." },
          [.generate, .pinImage, .pinMetadata]) ∧
      Store.get (Mvp.finishPipeline menv fid cache) fid =
        some (errRec "IPFS metadata upload failed.")) := by
  refine ⟨?_, ?_, ?_, ?_, ?_, ?_⟩
  · intro h₁
    have hrun : Main.runPipeline env fid = (errRec "No PFP found.", [.resolvePfp]) := by
      simp [Main.runPipeline, Main.pipelineSteps, h₁]
    exact ⟨by simpa [errRec] using hrun,
      by simp [Main.finishPipeline, hrun, Store.get_put_self]⟩
  · intro pfp h₁ h₂
    have hrun : Main.runPipeline env fid =
        (errRec "AI generation failed.", [.resolvePfp, .generate]) := by
      simp [Main.runPipeline, Main.pipelineSteps, h₁, h₂]
    exact ⟨by simpa [errRec] using hrun,
      by simp [Main.finishPipeline, hrun, Store.get_put_self]⟩
  · intro pfp ai h₁ h₂ h₃
    have hrun : Main.runPipeline env fid =
        (errRec "IPFS failed.", [.resolvePfp, .generate, .pinImage]) := by
      simp [Main.runPipeline, Main.pipelineSteps, h₁, h₂, h₃]
    exact ⟨by simpa [errRec] using hrun,
      by simp [Main.finishPipeline, hrun, Store.get_put_self]⟩
  · intro pfp ai uri h₁ h₂ h₃ h₄
    have hrun : Main.runPipeline env fid =
        (errRec "Metadata failed.", [.resolvePfp, .generate, .pinImage, .pinMetadata]) := by
      simp [Main.runPipeline, Main.pipelineSteps, h₁, h₂, h₃, h₄]
    exact ⟨by simpa [errRec] using hrun,
      by simp [Main.finishPipeline, hrun, Store.get_put_self]⟩
  · intro h₁
    have hrun : Mvp.runPipeline menv fid =
        (errRec "IPFS image upload failed.", [.generate, .pinImage]) := by
      simp [Mvp.runPipeline, Mvp.pipelineSteps, h₁, Mvp.jsOr, errRec]
    exact ⟨by simpa [errRec] using hrun,
      by simp [Mvp.finishPipeline, hrun, Store.get_put_self]⟩
  · intro uri h₁ h₂
    have hrun : Mvp.runPipeline menv fid =
        (errRec "IPFS metadata upload failed.", [.generate, .pinImage, .pinMetadata]) := by
      simp [Mvp.runPipeline, Mvp.pipelineSteps, h₁, h₂, Mvp.jsOr, errRec]
    exact ⟨by simpa [errRec] using hrun,
      by simp [Mvp.finishPipeline, hrun, Store.get_put_self]⟩

/-- C6 witness: the final server with a failing profile lookup, and the MVP
server with a failing image upload, on a concrete store. -/
theorem C6_witness :
    (Main.runPipeline envNoPfp "42" =
      ({ status := .error, ipfsUri := none, metadataUri := none,
         message := some "No PFP found." }, [.resolvePfp]) ∧
     Store.get (Main.finishPipeline envNoPfp "42" []) "42" =
       some (errRec "No PFP found.")) ∧
    (Mvp.runPipeline mvpEnvNoPin "42" =
      ({ status := .error, ipfsUri := none, metadataUri := none,
         message := some "IPFS image upload failed." }, [.generate, .pinImage]) ∧
     Store.get (Mvp.finishPipeline mvpEnvNoPin "42" []) "42" =
       some (errRec "IPFS image upload failed.")) :=
  ⟨(C6_stage_failure_writes_error_only envNoPfp mvpEnvNoPin "42" []).1 rfl,
   (C6_stage_failure_writes_error_only envNoPfp mvpEnvNoPin "42" []).2.2.2.2.1 rfl⟩

/-- C7: when every pipeline stage succeeds (each collaborator answers a truthy
string), the background job overwrites the key's record with the Ready record
carrying the two pinned URIs — both necessarily non-empty — and a subsequent
status query answers exactly that Ready record; shown for both servers. -/
theorem C7_full_success_writes_ready (env : Main.Env) (menv : Mvp.Env)
    (fid : String) (cache : Store) (pfp ai uri meta muri mmeta : String)
    (hf : fid ≠ "")
    (h₁ : toVal (env.pfpUrl fid) = some pfp)
    (h₂ : toVal (env.aiImage pfp) = some ai)
    (h₃ : toVal (env.pinImage ai fid) = some uri)
    (h₄ : toVal (env.pinMeta fid uri) = some meta)
    (hm₁ : toVal (menv.pinImage (Mvp.generateBoxCharacter menv fid) fid) = some muri)
    (hm₂ : toVal (menv.pinMeta fid muri) = some mmeta) :
    Main.runPipeline env fid =
      ({ status := .ready, ipfsUri := some uri, metadataUri := some meta,
         message := none }, [.resolvePfp, .generate, .pinImage, .pinMetadata]) ∧
    uri ≠ "" ∧ meta ≠ "" ∧
    getStatus (Main.finishPipeline env fid cache) fid =
      ({ code := 200,
         body := [("status", Jv.s "ready"), ("ipfsUri", Jv.s uri),
                  ("metadataUri", Jv.s meta)] },
        Main.finishPipeline env fid cache) ∧
    Mvp.runPipeline menv fid =
      ({ status := .ready, ipfsUri := some muri, metadataUri := some mmeta,
         message := none }, [.generate, .pinImage, .pinMetadata]) ∧
    muri ≠ "" ∧ mmeta ≠ "" ∧
    getStatus (Mvp.finishPipeline menv fid cache) fid =
      ({ code := 200,
         body := [("status", Jv.s "ready"), ("ipfsUri", Jv.s muri),
                  ("metadataUri", Jv.s mmeta)] },
        Mvp.finishPipeline menv fid cache) := by
  have hrun : Main.runPipeline env fid =
      (readyRec uri meta, [.resolvePfp, .generate, .pinImage, .pinMetadata]) := by
    simp [Main.runPipeline, Main.pipelineSteps, h₁, h₂, h₃, h₄]
  have hmrun : Mvp.runPipeline menv fid =
      (readyRec muri mmeta, [.generate, .pinImage, .pinMetadata]) := by
    simp [Mvp.runPipeline, Mvp.pipelineSteps, hm₁, hm₂]
  have hg : Store.get (Main.finishPipeline env fid cache) fid =
      some (readyRec uri meta) := by
    simp [Main.finishPipeline, hrun, Store.get_put_self]
  have hmg : Store.get (Mvp.finishPipeline menv fid cache) fid =
      some (readyRec muri mmeta) := by
    simp [Mvp.finishPipeline, hmrun, Store.get_put_self]
  refine ⟨by simpa [readyRec] using hrun, toVal_ne_empty h₃, toVal_ne_empty h₄,
    ?_, by simpa [readyRec] using hmrun, toVal_ne_empty hm₁, toVal_ne_empty hm₂, ?_⟩
  · simp [getStatus, hf, hg, JobRecord.toJson, readyRec, optField, statusStr]
  · simp [getStatus, hf, hmg, JobRecord.toJson, readyRec, optField, statusStr]

/-- C7 witness: both servers on concrete all-succeeding collaborators and the
empty store. -/
theorem C7_witness :
    Main.runPipeline envAllOk "42" =
      ({ status := .ready, ipfsUri := some "ipfs://Qa",
         metadataUri := some "ipfs://Qb", message := none },
        [.resolvePfp, .generate, .pinImage, .pinMetadata]) ∧
    "ipfs://Qa" ≠ "" ∧ "ipfs://Qb" ≠ "" ∧
    getStatus (Main.finishPipeline envAllOk "42" []) "42" =
      ({ code := 200,
         body := [("status", Jv.s "ready"), ("ipfsUri", Jv.s "ipfs://Qa"),
                  ("metadataUri", Jv.s "ipfs://Qb")] },
        Main.finishPipeline envAllOk "42" []) ∧
    Mvp.runPipeline mvpEnvAllOk "42" =
      ({ status := .ready, ipfsUri := some "ipfs://Qa",
         metadataUri := some "ipfs://Qb", message := none },
        [.generate, .pinImage, .pinMetadata]) ∧
    "ipfs://Qa" ≠ "" ∧ "ipfs://Qb" ≠ "" ∧
    getStatus (Mvp.finishPipeline mvpEnvAllOk "42" []) "42" =
      ({ code := 200,
         body := [("status", Jv.s "ready"), ("ipfsUri", Jv.s "ipfs://Qa"),
                  ("metadataUri", Jv.s "ipfs://Qb")] },
        Mvp.finishPipeline mvpEnvAllOk "42" []) :=
  C7_full_success_writes_ready envAllOk mvpEnvAllOk "42" []
    "https://pfp.example/42.png" "https://replicate.example/out.png"
    "ipfs://Qa" "ipfs://Qb" "ipfs://Qa" "ipfs://Qb"
    (by decide) rfl rfl rfl rfl rfl rfl

/-- Every cache-mutating step of either server: the synchronous part of the
two start handlers, the status handler, the two mint handlers, and the two
background write-backs. -/
inductive Op
  | startMain (fid : String)
  | startMvp (fid : String)
  | statusQuery (fid : String)
  | mintMain (sdkOk : Bool)
      (mint : String → String → Option String → Except String String)
      (fid recipient : String)
  | mintMvp (randomHex fid recipient : String)
  | pipelineMain (env : Main.Env) (fid : String)
  | pipelineMvp (env : Mvp.Env) (fid : String)

/-- The cache state after one operation. -/
def applyOp : Op → Store → Store
  | .startMain fid, cache => (Main.startGeneration cache fid).2.1
  | .startMvp fid, cache => (Mvp.startGeneration cache fid).2.1
  | .statusQuery fid, cache => (getStatus cache fid).2
  | .mintMain sdkOk mint fid recipient, cache =>
      (Main.mintNft sdkOk mint cache fid recipient).2.1
  | .mintMvp randomHex fid recipient, cache =>
      (Mvp.mintNft randomHex cache fid recipient).2.1
  | .pipelineMain env fid, cache => Main.finishPipeline env fid cache
  | .pipelineMvp env fid, cache => Mvp.finishPipeline env fid cache

/-- C8: every operation of both servers preserves the store-wide record
invariant — in every record, `ipfsUri`/`metadataUri` are present iff the
status is Ready and `message` is present iff the status is Error. -/
theorem C8_operations_preserve_invariant (op : Op) (cache : Store)
    (h : storeInv cache) : storeInv (applyOp op cache) := by
  cases op with
  | startMain fid =>
    by_cases hf : fid = ""
    · simpa [applyOp, Main.startGeneration, hf] using h
    · cases hg : Store.get cache fid with
      | none =>
        simpa [applyOp, Main.startGeneration, hf, hg] using
          storeInv_put h recordInv_procRec
      | some r =>
        by_cases hs : r.status = .error
        · simpa [applyOp, Main.startGeneration, hf, hg, hs] using
            storeInv_put h recordInv_procRec
        · simpa [applyOp, Main.startGeneration, hf, hg, hs] using h
  | startMvp fid =>
    by_cases hf : fid = ""
    · simpa [applyOp, Mvp.startGeneration, hf] using h
    · cases hg : Store.get cache fid with
      | none =>
        simpa [applyOp, Mvp.startGeneration, hf, hg] using
          storeInv_put h recordInv_procRec
      | some r =>
        by_cases hs : r.status = .ready
        · simpa [applyOp, Mvp.startGeneration, hf, hg, hs] using h
        · simpa [applyOp, Mvp.startGeneration, hf, hg, hs] using
            storeInv_put h recordInv_procRec
  | statusQuery fid =>
    by_cases hc : fid = "" ∨ Store.get cache fid = none
    · simpa [applyOp, getStatus, hc] using h
    · simp only [applyOp, getStatus, if_neg hc]
      cases hg : Store.get cache fid <;> simpa using h
  | mintMain sdkOk mint fid recipient =>
    by_cases hp : fid = "" ∨ recipient = ""
    · simpa [applyOp, Main.mintNft, hp] using h
    · simp only [applyOp, Main.mintNft, if_neg hp]
      cases hg : Store.get cache fid with
      | none => simpa using h
      | some e =>
        by_cases hs : e.status = .ready
        · cases sdkOk with
          | false => simpa [hs] using h
          | true =>
            cases hm : mint fid recipient e.metadataUri with
            | ok tx => simpa [hs, hm] using storeInv_remove h fid
            | error d => simpa [hs, hm] using h
        · simpa [hs] using h
  | mintMvp randomHex fid recipient =>
    by_cases hp : fid = "" ∨ recipient = ""
    · simpa [applyOp, Mvp.mintNft, hp] using h
    · simp only [applyOp, Mvp.mintNft, if_neg hp]
      cases hg : Store.get cache fid with
      | none => simpa using h
      | some e =>
        by_cases hs : e.status = .ready
        · simpa [hs] using storeInv_remove h fid
        · simpa [hs] using h
  | pipelineMain env fid =>
    simpa [applyOp, Main.finishPipeline] using
      storeInv_put h (recordInv_runPipelineMain env fid)
  | pipelineMvp env fid =>
    simpa [applyOp, Mvp.finishPipeline] using
      storeInv_put h (recordInv_runPipelineMvp env fid)

/-- C8 witness: one accepted start call on the empty store (which trivially
satisfies the invariant) yields an invariant-satisfying store. -/
theorem C8_witness : storeInv (applyOp (Op.startMain "1") []) :=
  C8_operations_preserve_invariant (Op.startMain "1") []
    (fun _ _ hg => nomatch hg)
